import Mathlib

/-!
Verification development for the TWCManager KNX control module
(lib/TWCManager/Control/KNXControl.py) and MQTT status module
(lib/TWCManager/Status/MQTTStatus.py).

The Python code is shallowly embedded: pure functions become Lean functions,
methods that mutate instance state become explicit state-passing functions,
and code that can raise exceptions returns an Except value. External
collaborators (the knxdclient and paho-mqtt libraries, the master controller,
the wall clock) are modelled as oracles/parameters, following the spec, which
scopes them out as collaborators.
-/

namespace TWC

/-! ## Python value and exception model

The validator is_valid_port accepts an int, a str, or None (the config getter
returns None for a missing key). We model exactly that value domain.
-/

/-- A Python value as it can reach the validators: an int, a str, or None. -/
inductive PyVal where
  | int (n : Int) : PyVal
  | str (s : String) : PyVal
  | none : PyVal
deriving DecidableEq

/-- A Python exception as raised by the embedded code. -/
inductive PyErr where
  | valueError (msg : String) : PyErr
  | typeError (msg : String) : PyErr
deriving DecidableEq

/-- Python truthiness for the values above: 0, "" and None are falsy. -/
def pyTruthy : PyVal → Bool
  | .int n => n != 0
  | .str s => s != ""
  | .none => false

/-- Numeric value of a list of decimal digit characters. -/
def digitsToNat (cs : List Char) : Nat :=
  cs.foldl (fun a c => a * 10 + (c.toNat - 48)) 0

/-- Parse a nonempty all-digit character list, as the digit part of int(). -/
def parseNatDigits (cs : List Char) : Option Nat :=
  if cs ≠ [] ∧ cs.all Char.isDigit then some (digitsToNat cs) else Option.none

/-- Strip leading and trailing whitespace from a character list, as int()
does to its string argument. -/
def stripWs (cs : List Char) : List Char :=
  ((cs.dropWhile Char.isWhitespace).reverse.dropWhile Char.isWhitespace).reverse

/-- Split a character list on a separator character, keeping empty pieces,
as Python str.split(sep) does. -/
def splitOnChar (sep : Char) : List Char → List (List Char)
  | [] => [[]]
  | c :: rest =>
    let r := splitOnChar sep rest
    if c = sep then [] :: r else (c :: r.headD []) :: r.tail

/-- CPython int(str): strips surrounding whitespace, allows an optional sign
followed by decimal digits, raises ValueError otherwise. (Underscore digit
separators and non-ASCII digits do not occur in this program's inputs and are
not modelled.) int() is a Python builtin, external to the repository. -/
def pyIntOfString (s : String) : Except PyErr Int :=
  match stripWs s.toList with
  | '-' :: rest =>
    match parseNatDigits rest with
    | some n => .ok (-(n : Int))
    | Option.none => .error (.valueError ("invalid literal for int with base 10: " ++ s))
  | '+' :: rest =>
    match parseNatDigits rest with
    | some n => .ok (n : Int)
    | Option.none => .error (.valueError ("invalid literal for int with base 10: " ++ s))
  | cs =>
    match parseNatDigits cs with
    | some n => .ok (n : Int)
    | Option.none => .error (.valueError ("invalid literal for int with base 10: " ++ s))

/-- Python int(val) on our value domain: identity on ints, string parse on
strings, TypeError on None. -/
def pyInt : PyVal → Except PyErr Int
  | .int n => .ok n
  | .str s => pyIntOfString s
  | .none => .error (.typeError "int argument must be a string or a number, not NoneType")

/-- The test `type(val) == int and 0 < val < 2 ** 16` from is_valid_port. -/
def isIntInRange : PyVal → Bool
  | .int n => decide (0 < n) && decide (n < 65536)
  | _ => false

/-- KNXControl.is_valid_port, embedded from the source:
```
if not val: return False
if type(val) == int and 0 < val < 2 ** 16: return True
else: return 0 < int(val) < 2 ** 16
```
The int() call in the else branch can raise, so the result is an Except. -/
def is_valid_port (val : PyVal) : Except PyErr Bool :=
  if pyTruthy val = false then
    .ok false
  else if isIntInRange val then
    .ok true
  else
    (pyInt val).map (fun m => decide (0 < m) && decide (m < 65536))

/-! ## The KNX address regex

is_knx_address checks `re.match(r"\d\x7b1,3\x7d/\d\x7b1,3\x7d/\d\x7b1,3\x7d", val)`:
match anchored at the start of the string, trailing characters ignored.
We embed the regex engine's behaviour on this fixed pattern: a `\d{1,3}`
piece tries the alternative lengths 1..3 (consuming only decimal digits),
and `/` consumes exactly one slash. `\d` is modelled as ASCII decimal digits,
the only digits occurring in this program's configuration strings.
-/

/-- Matcher for one `\d` repeated 1 to 3 times, with continuation k: succeeds
iff some alternative length i in 1..3 consumes i digit characters and k
accepts the remainder. -/
def tryRep13 (k : List Char → Bool) (s : List Char) : Bool :=
  [1, 2, 3].any fun i =>
    decide ((s.take i).length = i) && (s.take i).all Char.isDigit && k (s.drop i)

/-- Matcher for a literal slash, with continuation f. -/
def headSlashThen (f : List Char → Bool) : List Char → Bool
  | [] => false
  | c :: r => c = '/' && f r

/-- Anchored match of the whole pattern `\d\x7b1,3\x7d/\d\x7b1,3\x7d/\d\x7b1,3\x7d`
against the start of the character list; trailing characters are accepted. -/
def knx_regex_match : List Char → Bool :=
  tryRep13 (headSlashThen (tryRep13 (headSlashThen (tryRep13 (fun _ => true)))))

/-- KNXControl.is_knx_address, embedded from the source:
```
if not val: return False
return re.match(pattern, val) is not None
```
The argument is a configuration value: a string or None (missing key). -/
def is_knx_address : Option String → Bool
  | Option.none => false
  | some s => if s = "" then false else knx_regex_match s.toList

/-- Written from the spec's words, for comparison with the source embedding:
the string "matches the pattern \d\x7b1,3\x7d/\d\x7b1,3\x7d/\d\x7b1,3\x7d at the
start of the string", i.e. it decomposes as three runs of 1-3 decimal digits
separated by slashes, followed by arbitrary trailing characters. -/
def specKnxMatch (s : String) : Prop :=
  ∃ a b c rest : List Char,
    a.all Char.isDigit = true ∧ 1 ≤ a.length ∧ a.length ≤ 3 ∧
    b.all Char.isDigit = true ∧ 1 ≤ b.length ∧ b.length ≤ 3 ∧
    c.all Char.isDigit = true ∧ 1 ≤ c.length ∧ c.length ≤ 3 ∧
    s.toList = a ++ '/' :: (b ++ '/' :: (c ++ rest))

end TWC

namespace TWC

/-! ## Helper lemmas about the regex matcher -/

theorem tryRep13_eq_true_iff (k : List Char → Bool) (s : List Char) :
    tryRep13 k s = true ↔
      ∃ d r, s = d ++ r ∧ d.all Char.isDigit = true ∧ 1 ≤ d.length ∧
        d.length ≤ 3 ∧ k r = true := by
  constructor
  · intro h
    rcases List.any_eq_true.mp h with ⟨i, hi, hcond⟩
    simp only [Bool.and_eq_true, decide_eq_true_eq] at hcond
    obtain ⟨⟨hlen, hdig⟩, hk⟩ := hcond
    refine ⟨s.take i, s.drop i, (List.take_append_drop i s).symm, hdig, ?_, ?_, hk⟩
    · have : i ∈ ([1, 2, 3] : List Nat) := hi
      rw [hlen]
      fin_cases this <;> omega
    · have : i ∈ ([1, 2, 3] : List Nat) := hi
      rw [hlen]
      fin_cases this <;> omega
  · rintro ⟨d, r, rfl, hdig, h1, h3, hk⟩
    apply List.any_eq_true.mpr
    refine ⟨d.length, ?_, ?_⟩
    · interval_cases h : d.length <;> simp
    · have htake : (d ++ r).take d.length = d := by
        simp [List.take_append_of_le_length (le_refl d.length)]
      have hdrop : (d ++ r).drop d.length = r := by
        simp [List.drop_append_of_le_length (le_refl d.length)]
      simp [htake, hdrop, hdig, hk]

theorem headSlashThen_eq_true_iff (f : List Char → Bool) (r : List Char) :
    headSlashThen f r = true ↔ ∃ t, r = '/' :: t ∧ f t = true := by
  cases r with
  | nil => simp [headSlashThen]
  | cons c t =>
    simp only [headSlashThen, Bool.and_eq_true, decide_eq_true_eq]
    constructor
    · rintro ⟨rfl, hf⟩; exact ⟨t, rfl, hf⟩
    · rintro ⟨t', ht, hf⟩
      injection ht with h1 h2
      subst h1; subst h2
      exact ⟨rfl, hf⟩

theorem knx_regex_match_iff (l : List Char) :
    knx_regex_match l = true ↔
      ∃ a b c rest : List Char,
        a.all Char.isDigit = true ∧ 1 ≤ a.length ∧ a.length ≤ 3 ∧
        b.all Char.isDigit = true ∧ 1 ≤ b.length ∧ b.length ≤ 3 ∧
        c.all Char.isDigit = true ∧ 1 ≤ c.length ∧ c.length ≤ 3 ∧
        l = a ++ '/' :: (b ++ '/' :: (c ++ rest)) := by
  unfold knx_regex_match
  rw [tryRep13_eq_true_iff]
  constructor
  · rintro ⟨a, r1, rfl, ha, ha1, ha3, h1⟩
    rcases (headSlashThen_eq_true_iff _ _).mp h1 with ⟨r2, rfl, h2⟩
    rcases (tryRep13_eq_true_iff _ _).mp h2 with ⟨b, r3, rfl, hb, hb1, hb3, h3⟩
    rcases (headSlashThen_eq_true_iff _ _).mp h3 with ⟨r4, rfl, h4⟩
    rcases (tryRep13_eq_true_iff _ _).mp h4 with ⟨c, rest, rfl, hc, hc1, hc3, _⟩
    exact ⟨a, b, c, rest, ha, ha1, ha3, hb, hb1, hb3, hc, hc1, hc3, rfl⟩
  · rintro ⟨a, b, c, rest, ha, ha1, ha3, hb, hb1, hb3, hc, hc1, hc3, rfl⟩
    refine ⟨a, '/' :: (b ++ '/' :: (c ++ rest)), rfl, ha, ha1, ha3, ?_⟩
    rw [headSlashThen_eq_true_iff]
    refine ⟨b ++ '/' :: (c ++ rest), rfl, ?_⟩
    rw [tryRep13_eq_true_iff]
    refine ⟨b, '/' :: (c ++ rest), rfl, hb, hb1, hb3, ?_⟩
    rw [headSlashThen_eq_true_iff]
    refine ⟨c ++ rest, rfl, ?_⟩
    rw [tryRep13_eq_true_iff]
    exact ⟨c, rest, rfl, hc, hc1, hc3, rfl⟩

end TWC

namespace TWC

/-! ## KNX control: data model

knxdclient types are external collaborators; we embed only the semantic
boundary that KNXControl depends on, following the spec: a telegram carries a
destination group address and a typed payload whose wire decoding is delegated
to knxdclient.decode_value. The handler decodes a rate payload with
KNXDPT.FLOAT32 (then truncates with int()) and a duration payload with
KNXDPT.UINT16; since decoding is external, the packet model carries the result
of each of the two decodings the handler can ask for. -/

/-- knxdclient.GroupAddress: the triple (main, middle, sub). -/
structure GroupAddress where
  main : Int
  middle : Int
  sub : Int
deriving DecidableEq

/-- The application-layer command type of a group telegram
(knxdclient.KNXDAPDUType): write, read or response. -/
inductive KNXDAPDUType where
  | write
  | read
  | response
deriving DecidableEq

/-- A received group telegram (knxdclient.ReceivedGroupAPDU) as seen by
knx_packet_handler. payloadIsGroupAPDU models the
`type(packet.payload) == knxdclient.KNXGroupAPDU` check;
decodedFloat32Trunc is `int(knxdclient.decode_value(payload.value, FLOAT32))`
and decodedUint16 is `knxdclient.decode_value(payload.value, UINT16)`,
decoding being delegated to the external knxdclient library. -/
structure ReceivedGroupAPDU where
  dst : GroupAddress
  payloadIsGroupAPDU : Bool
  payloadType : KNXDAPDUType
  decodedFloat32Trunc : Int
  decodedUint16 : Nat
deriving DecidableEq

/-- The mutable KNXControl state read and written by knx_packet_handler:
the two configured group addresses (already converted by __init__) and the
stored charge-now duration. -/
structure KNXHandlerState where
  chargeNowRateAddress : GroupAddress
  chargeNowDurationAddress : GroupAddress
  chargeNowDuration : Int
deriving DecidableEq

/-- A charge-session call made on the master controller. Logging calls
(master.debugLog) are the observable log sink and are not part of the
session-command trace. -/
inductive MasterCall where
  | resetChargeNowAmps
  | setChargeNowTimeEnd (duration : Int)
  | setChargeNowAmps (amps : Int)
deriving DecidableEq

/-- KNXControl.is_valid_chargenow_cmd:
`packet.dst == dst and type(packet.payload) == KNXGroupAPDU and
 packet.payload.type == KNXDAPDUType.WRITE`. -/
def is_valid_chargenow_cmd (packet : ReceivedGroupAPDU) (dst : GroupAddress) : Bool :=
  packet.dst == dst && packet.payloadIsGroupAPDU &&
    packet.payloadType == KNXDAPDUType.write

/-- KNXControl.knx_packet_handler: dispatches a received telegram, returning
the updated handler state and the session calls made on the master, in order. -/
def knx_packet_handler (st : KNXHandlerState) (packet : ReceivedGroupAPDU) :
    KNXHandlerState × List MasterCall :=
  if is_valid_chargenow_cmd packet st.chargeNowRateAddress then
    let amps : Int := packet.decodedFloat32Trunc
    if amps = 0 then
      (st, [MasterCall.resetChargeNowAmps])
    else
      (st, [MasterCall.setChargeNowTimeEnd st.chargeNowDuration,
            MasterCall.setChargeNowAmps amps])
  else if is_valid_chargenow_cmd packet st.chargeNowDurationAddress then
    let duration : Nat := packet.decodedUint16
    if duration ≤ 0 then
      (st, [MasterCall.resetChargeNowAmps])
    else
      ({st with chargeNowDuration := (duration : Int)}, [])
  else
    (st, [])

/-! ## KNX control: the reconnect loop

knx_server_loop is `while True:` around a try whose except clauses both end in
a sleep and fall through to the next iteration; no branch breaks or returns.
What each iteration does besides sleeping is external (connect, run the
telegram stream); per iteration the embedding keeps only the event that ended
the iteration. -/

/-- The event ending one iteration of the `while True` body of
knx_server_loop. OSError can be raised by the connect call or later, during
the connected phase, from the awaited run task; both reach the same
`except OSError` clause. Any other exception reaches the bare `except`
clause. A normally-completed run task ends the try block without sleeping. -/
inductive KNXIterEvent where
  | connectOSError
  | connectedOSError
  | connectedOtherError
  | runCompleted
deriving DecidableEq

/-- What the loop does after an iteration: continue after sleeping, or exit. -/
inductive LoopControl where
  | continueLoop (sleepSeconds : Nat)
  | exitLoop
deriving DecidableEq

/-- One iteration of the knx_server_loop body: the `except OSError` clause
sleeps 30 seconds, the bare `except` clause sleeps 1 second, a normal
completion of the try block sleeps nowhere; every branch falls through to the
next iteration of `while True` (the body contains no break or return). -/
def knx_server_loop_body : KNXIterEvent → LoopControl
  | .connectOSError => .continueLoop 30
  | .connectedOSError => .continueLoop 30
  | .connectedOtherError => .continueLoop 1
  | .runCompleted => .continueLoop 0

/-- Whether knx_server_loop is still running after n iterations whose ending
events are given by the oracle events. -/
def knx_server_loop_running (events : Nat → KNXIterEvent) : Nat → Bool
  | 0 => true
  | n + 1 =>
    match knx_server_loop_body (events n) with
    | .continueLoop _ => knx_server_loop_running events n
    | .exitLoop => false

/-! ## KNX control: construction-time validation -/

/-- The KNX section of the configuration as read by KNXControl.__init__;
every .get call can yield None for a missing key. -/
structure KNXConfig where
  enabled : Bool
  gatewayIP : Option String
  gatewayPort : Option String
  chargeNowDurationAddress : Option String
  chargeNowRateAddress : Option String
  chargeNowDurationDefault : Option String

/-- Modelled from the spec: the endpoint host must be a valid IP address.
The source delegates this to ipaddress.ip_address from the Python standard
library (not part of this repository), which raises ValueError for a string
that is neither a valid IPv4 nor IPv6 address. We model the IPv4 dotted-quad
form, the form the configurations in the claims and spec use: four
dot-separated decimal components, each without leading zeros and at most 255.
A missing (None) host is stringified by the library and rejected. -/
def ip_address_ok : Option String → Bool
  | Option.none => false
  | some s =>
    let parts := splitOnChar '.' s.toList
    decide (parts.length = 4) && parts.all fun p =>
      decide (p.length ≥ 1) && decide (p.length ≤ 3) &&
      (p.all Char.isDigit) &&
      (decide (p.length = 1) || decide (p.headD '0' ≠ '0')) &&
      decide (digitsToNat p ≤ 255)

/-- Lift an optional configuration string into the Python value domain. -/
def pyOfOpt : Option String → PyVal
  | Option.none => PyVal.none
  | some s => PyVal.str s

/-- KNXControl.is_properly_configured: checks gatewayIP with
ipaddress.ip_address (catching ValueError), then gatewayPort with
is_valid_port, then chargeNowRateAddress with is_knx_address, short-circuiting
at the first failing check. An exception raised by is_valid_port (possible for
a non-numeric port string) propagates. The chargeNowDurationAddress is not
checked. -/
def is_properly_configured (cfg : KNXConfig) : Except PyErr Bool :=
  if ip_address_ok cfg.gatewayIP = false then
    .ok false
  else
    match is_valid_port (pyOfOpt cfg.gatewayPort) with
    | .error e => .error e
    | .ok portOk =>
      if portOk = false then .ok false
      else if is_knx_address cfg.chargeNowRateAddress = false then .ok false
      else .ok true

/-- KNXControl.group_address_from_string:
`adr_tuple = (int(n) for n in s.split('/')); GroupAddress(*adr_tuple)`.
Each segment goes through int() (which can raise ValueError); a segment count
other than three makes the GroupAddress constructor call raise a TypeError. -/
def group_address_from_string (s : String) : Except PyErr GroupAddress :=
  match (splitOnChar '/' s.toList).mapM (fun seg => pyIntOfString (String.mk seg)) with
  | .error e => .error e
  | .ok [a, b, c] => .ok ⟨a, b, c⟩
  | .ok _ => .error (.typeError "GroupAddress takes exactly 3 arguments")

/-- An address field of the constructed KNXControl object: left as the raw
configuration value, or converted to a GroupAddress when is_knx_address
accepted it. -/
inductive AddrField where
  | raw (v : Option String)
  | converted (g : GroupAddress)
deriving DecidableEq

/-- The `if is_knx_address(x): x = group_address_from_string(x)` step of
__init__ applied to one address field. -/
def convert_if_knx (v : Option String) : Except PyErr AddrField :=
  match v with
  | some s =>
    if is_knx_address (some s) then (group_address_from_string s).map AddrField.converted
    else .ok (AddrField.raw (some s))
  | Option.none => .ok (AddrField.raw Option.none)

/-- The error terminating KNXControl.__init__: the explicit
`raise RuntimeError("KNX modules not configured correctly.")`, or a Python
exception propagating out of a helper. -/
inductive InitErr where
  | runtimeError (msg : String)
  | pyErr (e : PyErr)
deriving DecidableEq

/-- The fields of a fully constructed, enabled KNXControl object that
__init__ assigns (the background server thread it then starts is external). -/
structure KNXInitState where
  gatewayIP : Option String
  gatewayPort : Option String
  chargeNowRateAddress : AddrField
  chargeNowDurationAddress : AddrField
  chargeNowDuration : Option String
deriving DecidableEq

/-- Outcome of a completed KNXControl.__init__: the module released itself
(disabled in the configuration), or it started with the given state. -/
inductive KNXInitResult where
  | released
  | started (st : KNXInitState)
deriving DecidableEq

/-- KNXControl.__init__ from the point where the configuration values have
been read: release the module when disabled; raise RuntimeError when
is_properly_configured is false; convert each address field that
is_knx_address accepts; then start the server thread. -/
def KNXControl_init (cfg : KNXConfig) : Except InitErr KNXInitResult :=
  if cfg.enabled = false then
    .ok KNXInitResult.released
  else
    match is_properly_configured cfg with
    | .error e => .error (InitErr.pyErr e)
    | .ok false => .error (InitErr.runtimeError "KNX modules not configured correctly.")
    | .ok true =>
      match convert_if_knx cfg.chargeNowRateAddress with
      | .error e => .error (InitErr.pyErr e)
      | .ok rate =>
        match convert_if_knx cfg.chargeNowDurationAddress with
        | .error e => .error (InitErr.pyErr e)
        | .ok dur =>
          .ok (KNXInitResult.started
            ⟨cfg.gatewayIP, cfg.gatewayPort, rate, dur, cfg.chargeNowDurationDefault⟩)

end TWC

namespace TWC

/-! ## MQTT status: data model

MQTTStatus holds a per-topic rate map (a Python dict from topic to the last
send time), a message queue (a Python list), a drain buffer, and a numeric
connection state. time.time() is the external wall clock, passed in as `now`;
the paho-mqtt client is the external transport, so the outcome of
`connect_async` and the per-message outcome of `client.publish` are passed in
as oracles. -/

/-- One queued outbound message: the dict `topic: ..., payload: ...` built by
setStatus (the payload value is opaque to the module; modelled as a string). -/
structure OutMsg where
  topic : String
  payload : String
deriving DecidableEq

/-- The mutable MQTTStatus instance state that setStatus and mqttConnected
read and write. The source name of the topicPfx field is the topic prefix
configuration value. -/
structure MQTTState where
  status : Bool
  topicPfx : String
  msgRate : List (String × Nat)
  msgQueue : List OutMsg
  msgQueueBuffer : List OutMsg
  msgQueueMax : Nat
  msgRatePerTopic : Nat
  connectionState : Nat
deriving DecidableEq

/-- Lookup in the msgRate dict: the last send time recorded for a topic. -/
def rateLookup : List (String × Nat) → String → Option Nat
  | [], _ => Option.none
  | (k, w) :: rest, t => if k = t then some w else rateLookup rest t

/-- Assignment `msgRate[topic] = now` on the msgRate dict: replace the
existing binding or add a new one. -/
def rateSet : List (String × Nat) → String → Nat → List (String × Nat)
  | [], t, v => [(t, v)]
  | (k, w) :: rest, t, v =>
    if k = t then (k, v) :: rest else (k, w) :: rateSet rest t v

/-- Outcome of the `client.connect_async(...)` call inside setStatus: it
returns normally, or raises ConnectionRefusedError, or raises another
OSError. The real connection attempt is asynchronous; this is only the
synchronous outcome of initiating it. -/
inductive ConnectOutcome where
  | ok
  | refused
  | oserror
deriving DecidableEq

/-- The enqueue/trim/connect tail of setStatus (everything after the rate
limiter has allowed the message): append the message, trim the queue when its
length exceeds msgQueueMax + 8 by deleting the first msgQueueMax entries
(`del self.msgQueue[:self.msgQueueMax]`), then, when connectionState is 0,
initiate an asynchronous connect: on success set connectionState to 1 and
fall off the end of the method (Python returns None); on
ConnectionRefusedError or OSError return False. When connectionState is not
0, fall off the end of the method. -/
def setStatus_enqueue (st : MQTTState) (topic payload : String)
    (conn : ConnectOutcome) : MQTTState × Option Bool :=
  let q1 := st.msgQueue ++ [⟨topic, payload⟩]
  let q2 := if q1.length > st.msgQueueMax + 8 then q1.drop st.msgQueueMax else q1
  let st1 := {st with msgQueue := q2}
  if st1.connectionState = 0 then
    match conn with
    | .ok => ({st1 with connectionState := 1}, Option.none)
    | .refused => (st1, some false)
    | .oserror => (st1, some false)
  else
    (st1, Option.none)

/-- MQTTStatus.setStatus: with the module disabled the body is skipped
(Python returns None). Otherwise build the topic, rate-limit (a message for a
topic seen less than msgRatePerTopic seconds ago returns True immediately;
otherwise the current time is recorded for the topic), then enqueue, trim and
connect. `now` is the value of time.time(); `conn` the connect_async outcome. -/
def setStatus (st : MQTTState) (now : Nat) (twcid key payload : String)
    (conn : ConnectOutcome) : MQTTState × Option Bool :=
  if st.status = false then
    (st, Option.none)
  else
    let topic := st.topicPfx ++ "/" ++ twcid ++ "/" ++ key
    match rateLookup st.msgRate topic with
    | some last =>
      if now - last < st.msgRatePerTopic then
        (st, some true)
      else
        setStatus_enqueue {st with msgRate := rateSet st.msgRate topic now}
          topic payload conn
    | Option.none =>
      setStatus_enqueue {st with msgRate := rateSet st.msgRate topic now}
        topic payload conn

/-- Outcome of the mqttConnected callback. raisedNameError records whether an
exception escaped the callback: in the source the per-message handler is
written `except e:`, and `e` is an unbound name, so the moment any
client.publish call raises, evaluating the except clause raises
NameError("name e is not defined"), which propagates out of the callback.
published lists the messages actually published, in order; disconnected
records whether the final loop_stop/disconnect calls were reached. -/
structure DrainOutcome where
  finalState : MQTTState
  published : List OutMsg
  raisedNameError : Bool
  disconnected : Bool
deriving DecidableEq

/-- The publish loop of mqttConnected over the snapshot buffer: publishes
messages until one publish call raises (pub says whether a given message
publishes without raising). Returns the published messages and whether the
loop was aborted by the NameError from the broken except clause. -/
def drainLoop (pub : OutMsg → Bool) : List OutMsg → List OutMsg × Bool
  | [] => ([], false)
  | m :: rest =>
    if pub m then
      let r := drainLoop pub rest
      (m :: r.1, r.2)
    else
      ([], true)

/-- MQTTStatus.mqttConnected: copy msgQueue into msgQueueBuffer, clear
msgQueue, publish each buffered message (`pub` gives the outcome of each
client.publish call), then stop the loop, clear the buffer, set
connectionState back to 0 and disconnect. When a publish call raises, the
`except e:` clause raises NameError and the callback aborts: the buffer is
not cleared, connectionState keeps its value, and no disconnect happens. -/
def mqttConnected (st : MQTTState) (pub : OutMsg → Bool) : DrainOutcome :=
  let buffer := st.msgQueue
  let st1 := {st with msgQueueBuffer := buffer, msgQueue := []}
  let r := drainLoop pub buffer
  if r.2 then
    { finalState := st1, published := r.1, raisedNameError := true,
      disconnected := false }
  else
    { finalState := {st1 with msgQueueBuffer := [], connectionState := 0},
      published := r.1, raisedNameError := false, disconnected := true }

/-- An asynchronous event reported by the paho transport after connect_async
returned: the connection succeeded (CONNACK received), or the attempt failed
(refused or network error reported asynchronously). -/
inductive MqttAsyncEvent where
  | connSuccess
  | connFailureReport
deriving DecidableEq

/-- Dispatch of an asynchronous transport event against the callbacks the
module registers. setStatus registers only `client.on_connect =
self.mqttConnected`; no failure callback is registered anywhere in the
module, so a reported connect failure runs no module code and leaves the
state unchanged. -/
def mqtt_dispatch (st : MQTTState) (pub : OutMsg → Bool) :
    MqttAsyncEvent → MQTTState
  | .connSuccess => (mqttConnected st pub).finalState
  | .connFailureReport => st

end TWC

namespace TWC

/-- Claim C10: is_knx_address returns true iff the string matches the pattern
of three 1-to-3-digit segments separated by slashes at the start of the string
(trailing characters after a valid three-segment head are still accepted),
returns false for empty or falsy (None) input, and in particular is true for
"1/1/123" and "111/222/123" and false for "1/1111/123", "1.1.123", "" and
None. -/
theorem C10_is_knx_address_spec :
    (∀ s : String, is_knx_address (some s) = true ↔ specKnxMatch s) ∧
    is_knx_address Option.none = false ∧
    is_knx_address (some "") = false ∧
    is_knx_address (some "1/1/123") = true ∧
    is_knx_address (some "111/222/123") = true ∧
    is_knx_address (some "1/1111/123") = false ∧
    is_knx_address (some "1.1.123") = false := by
  refine ⟨?_, rfl, rfl, by decide, by decide, by decide, by decide⟩
  intro s
  by_cases hs : s = ""
  · subst hs
    constructor
    · intro h
      simp [is_knx_address] at h
    · rintro ⟨a, b, c, rest, -, ha1, -, -, -, -, -, -, -, hlist⟩
      have hlen := congrArg List.length hlist
      have h0 : ("" : String).toList = [] := rfl
      rw [h0] at hlen
      simp [List.length_append] at hlen
      omega
  · have hval : is_knx_address (some s) = knx_regex_match s.toList := by
      simp [is_knx_address, hs]
    rw [hval]
    exact knx_regex_match_iff s.toList

/-- Claim C9 counterexample: contrary to the claim that is_valid_port never
raises, it raises a ValueError on the non-numeric, non-empty string "abc"
(the else branch calls int() on the string). -/
theorem C9_counterexample :
    is_valid_port (PyVal.str "abc") =
      Except.error (PyErr.valueError "invalid literal for int with base 10: abc") := by
  rfl

/-- Claim C9 (amended): is_valid_port returns false for falsy input (0, "",
None) without raising; for an int it returns true iff the value lies strictly
between 0 and 65536; for a non-empty string that int() parses it returns true
iff the parsed value lies strictly between 0 and 65536; but for a non-empty
string that int() cannot parse it raises that ValueError instead of returning
a boolean. -/
theorem C9_is_valid_port_amended (v : PyVal) :
    (pyTruthy v = false → is_valid_port v = Except.ok false) ∧
    (∀ n : Int, v = PyVal.int n →
       is_valid_port v = Except.ok (decide (0 < n) && decide (n < 65536))) ∧
    (∀ s : String, ∀ n : Int, v = PyVal.str s → s ≠ "" → pyIntOfString s = Except.ok n →
       is_valid_port v = Except.ok (decide (0 < n) && decide (n < 65536))) ∧
    (∀ s : String, ∀ e : PyErr, v = PyVal.str s → s ≠ "" → pyIntOfString s = Except.error e →
       is_valid_port v = Except.error e) := by
  refine ⟨?_, ?_, ?_, ?_⟩
  · intro h
    simp [is_valid_port, h]
  · rintro n rfl
    by_cases h0 : n = 0
    · subst h0
      simp [is_valid_port, pyTruthy]
    · have ht : pyTruthy (PyVal.int n) = true := by simp [pyTruthy, h0]
      by_cases hr : 0 < n ∧ n < 65536
      · have hin : isIntInRange (PyVal.int n) = true := by
          simp [isIntInRange, hr.1, hr.2]
        simp [is_valid_port, ht, hin, hr.1, hr.2]
      · have hin : isIntInRange (PyVal.int n) = false := by
          simp only [isIntInRange, Bool.and_eq_false_iff, decide_eq_false_iff_not]
          omega
        simp [is_valid_port, ht, hin, pyInt, Except.map]
  · rintro s n rfl hs hparse
    have ht : pyTruthy (PyVal.str s) = true := by simp [pyTruthy, hs]
    simp [is_valid_port, ht, isIntInRange, pyInt, hparse, Except.map]
  · rintro s e rfl hs herr
    have ht : pyTruthy (PyVal.str s) = true := by simp [pyTruthy, hs]
    simp [is_valid_port, ht, isIntInRange, pyInt, herr, Except.map]

/-- Claim C9 witness: the amended theorem applied to the concrete numeric
string "65000". -/
theorem C9_witness :
    is_valid_port (PyVal.str "65000") =
      Except.ok (decide ((0 : Int) < 65000) && decide ((65000 : Int) < 65536)) :=
  (C9_is_valid_port_amended (PyVal.str "65000")).2.2.1 "65000" 65000 rfl
    (by decide) (by rfl)

end TWC

namespace TWC

/-- Claim C1: for every received telegram, knx_packet_handler checks the rate
address first and the duration address second; a valid write-type group
command to the rate address with truncated float amps 0 triggers exactly the
session reset, with amps nonzero it calls setChargeNowTimeEnd with the stored
duration strictly before setChargeNowAmps(amps) and changes no state; a valid
write-type group command to the duration address (not matching the rate
address) with unsigned 16-bit value 0 triggers exactly the session reset,
with a positive value it only stores the new default duration and makes no
session call; a telegram matching neither address makes no session call and
changes no state. -/
theorem C1_knx_packet_handler_dispatch (st : KNXHandlerState) (p : ReceivedGroupAPDU) :
    (is_valid_chargenow_cmd p st.chargeNowRateAddress = true →
       p.decodedFloat32Trunc = 0 →
       knx_packet_handler st p = (st, [MasterCall.resetChargeNowAmps])) ∧
    (is_valid_chargenow_cmd p st.chargeNowRateAddress = true →
       p.decodedFloat32Trunc ≠ 0 →
       knx_packet_handler st p =
         (st, [MasterCall.setChargeNowTimeEnd st.chargeNowDuration,
               MasterCall.setChargeNowAmps p.decodedFloat32Trunc])) ∧
    (is_valid_chargenow_cmd p st.chargeNowRateAddress = false →
       is_valid_chargenow_cmd p st.chargeNowDurationAddress = true →
       p.decodedUint16 = 0 →
       knx_packet_handler st p = (st, [MasterCall.resetChargeNowAmps])) ∧
    (is_valid_chargenow_cmd p st.chargeNowRateAddress = false →
       is_valid_chargenow_cmd p st.chargeNowDurationAddress = true →
       p.decodedUint16 ≠ 0 →
       knx_packet_handler st p =
         ({st with chargeNowDuration := (p.decodedUint16 : Int)}, [])) ∧
    (is_valid_chargenow_cmd p st.chargeNowRateAddress = false →
       is_valid_chargenow_cmd p st.chargeNowDurationAddress = false →
       knx_packet_handler st p = (st, [])) := by
  refine ⟨?_, ?_, ?_, ?_, ?_⟩
  · intro h1 h2
    simp [knx_packet_handler, h1, h2]
  · intro h1 h2
    simp [knx_packet_handler, h1, h2]
  · intro h1 h2 h3
    simp [knx_packet_handler, h1, h2, h3]
  · intro h1 h2 h3
    simp [knx_packet_handler, h1, h2, Nat.le_zero, h3]
  · intro h1 h2
    simp [knx_packet_handler, h1, h2]

/-- Claim C1 witness: the dispatch theorem applied to a concrete write
telegram to the rate address decoding to 7 amps, with stored duration 3600:
the handler sets the end time before the amperage. -/
theorem C1_witness :
    knx_packet_handler
      ⟨⟨1, 1, 11⟩, ⟨1, 1, 10⟩, 3600⟩
      ⟨⟨1, 1, 11⟩, true, KNXDAPDUType.write, 7, 0⟩ =
      (⟨⟨1, 1, 11⟩, ⟨1, 1, 10⟩, 3600⟩,
       [MasterCall.setChargeNowTimeEnd 3600, MasterCall.setChargeNowAmps 7]) :=
  (C1_knx_packet_handler_dispatch
      ⟨⟨1, 1, 11⟩, ⟨1, 1, 10⟩, 3600⟩
      ⟨⟨1, 1, 11⟩, true, KNXDAPDUType.write, 7, 0⟩).2.1
    (by decide) (by decide)

/-- Claim C7: the reconnect loop never terminates on its own: after any
number of iterations ending in any events it is still running, an OSError
raised while connecting makes the iteration sleep 30 seconds before
continuing, and any non-OSError failure during the connected phase makes the
iteration sleep 1 second before continuing; no branch of the loop body exits
the loop. -/
theorem C7_knx_server_loop_retries (events : Nat → KNXIterEvent) (n : Nat) :
    knx_server_loop_running events n = true ∧
    knx_server_loop_body KNXIterEvent.connectOSError = LoopControl.continueLoop 30 ∧
    knx_server_loop_body KNXIterEvent.connectedOtherError = LoopControl.continueLoop 1 ∧
    (∀ e : KNXIterEvent, knx_server_loop_body e ≠ LoopControl.exitLoop) := by
  refine ⟨?_, rfl, rfl, by intro e; cases e <;> simp [knx_server_loop_body]⟩
  induction n with
  | zero => rfl
  | succ k ih =>
    have hb := knx_server_loop_running.eq_2 events k
    rw [hb]
    cases events k <;> simp [knx_server_loop_body] <;> exact ih

end TWC

namespace TWC

/-- Helper: a configured address value rejected by is_knx_address is left
unconverted by the conversion step of __init__, without raising. -/
theorem convert_if_knx_of_not_knx (v : Option String) (h : is_knx_address v = false) :
    convert_if_knx v = Except.ok (AddrField.raw v) := by
  cases v with
  | none => rfl
  | some s => simp [convert_if_knx, h]

/-- Claim C5 counterexample: a configuration with a valid gateway IP, a valid
gateway port and a valid rate address but a malformed duration address is
accepted by the constructor — no fatal error is raised, contradicting the
claim that both automation addresses are validated at startup. -/
theorem C5_counterexample :
    KNXControl_init
      ⟨true, some "172.16.0.1", some "6720", some "garbage", some "1/1/11", some "3600"⟩ =
      Except.ok (KNXInitResult.started
        ⟨some "172.16.0.1", some "6720", AddrField.converted ⟨1, 1, 11⟩,
         AddrField.raw (some "garbage"), some "3600"⟩) ∧
    is_knx_address (some "garbage") = false := by
  refine ⟨by rfl, by decide⟩

/-- Claim C5 (amended): startup with the module enabled validates the
endpoint (IP address and port) and the rate address only, raising a
constructor-time error whenever one of those is invalid (RuntimeError for a
failed check, a propagated exception if the port check itself raises); the
duration address is not validated, and an invalid duration address alone
does not abort initialization — it is left unconverted and the module
starts. -/
theorem C5_init_validation_amended (cfg : KNXConfig) :
    (cfg.enabled = true → is_properly_configured cfg = Except.ok false →
       KNXControl_init cfg =
         Except.error (InitErr.runtimeError "KNX modules not configured correctly.")) ∧
    (∀ e : PyErr, cfg.enabled = true → is_properly_configured cfg = Except.error e →
       KNXControl_init cfg = Except.error (InitErr.pyErr e)) ∧
    (cfg.enabled = true → ip_address_ok cfg.gatewayIP = false →
       KNXControl_init cfg =
         Except.error (InitErr.runtimeError "KNX modules not configured correctly.")) ∧
    (∀ g : AddrField, cfg.enabled = true → is_properly_configured cfg = Except.ok true →
       convert_if_knx cfg.chargeNowRateAddress = Except.ok g →
       is_knx_address cfg.chargeNowDurationAddress = false →
       KNXControl_init cfg =
         Except.ok (KNXInitResult.started
           ⟨cfg.gatewayIP, cfg.gatewayPort, g,
            AddrField.raw cfg.chargeNowDurationAddress, cfg.chargeNowDurationDefault⟩)) := by
  refine ⟨?_, ?_, ?_, ?_⟩
  · intro hen hpc
    simp [KNXControl_init, hen, hpc]
  · intro e hen hpc
    simp [KNXControl_init, hen, hpc]
  · intro hen hip
    have hpc : is_properly_configured cfg = Except.ok false := by
      simp [is_properly_configured, hip]
    simp [KNXControl_init, hen, hpc]
  · intro g hen hpc hrate hdur
    have hconv := convert_if_knx_of_not_knx cfg.chargeNowDurationAddress hdur
    simp [KNXControl_init, hen, hpc, hrate, hconv]

/-- Claim C5 witness: the amended theorem applied to a concrete enabled
configuration whose duration address "x" is malformed; construction still
succeeds. -/
theorem C5_witness :
    KNXControl_init
      ⟨true, some "172.16.0.1", some "6720", some "x", some "1/1/11", some "3600"⟩ =
      Except.ok (KNXInitResult.started
        ⟨some "172.16.0.1", some "6720", AddrField.converted ⟨1, 1, 11⟩,
         AddrField.raw (some "x"), some "3600"⟩) :=
  (C5_init_validation_amended
      ⟨true, some "172.16.0.1", some "6720", some "x", some "1/1/11", some "3600"⟩).2.2.2
    (AddrField.converted ⟨1, 1, 11⟩) rfl (by rfl) (by rfl) (by decide)

end TWC

namespace TWC

/-! ## Helper lemmas about setStatus -/

/-- The effect of the enqueue/trim/connect tail of setStatus on each field
of the state and on the return value. -/
theorem setStatus_enqueue_fields (st : MQTTState) (t p : String) (conn : ConnectOutcome) :
    (setStatus_enqueue st t p conn).1.msgRate = st.msgRate ∧
    (setStatus_enqueue st t p conn).1.msgQueue =
      (if (st.msgQueue ++ [OutMsg.mk t p]).length > st.msgQueueMax + 8 then
        (st.msgQueue ++ [OutMsg.mk t p]).drop st.msgQueueMax
      else st.msgQueue ++ [OutMsg.mk t p]) ∧
    (setStatus_enqueue st t p conn).1.msgQueueMax = st.msgQueueMax ∧
    (setStatus_enqueue st t p conn).1.connectionState =
      (if st.connectionState = 0 ∧ conn = ConnectOutcome.ok then 1
       else st.connectionState) ∧
    (setStatus_enqueue st t p conn).2 =
      (if st.connectionState = 0 then
        (if conn = ConnectOutcome.ok then Option.none else some false)
      else Option.none) := by
  unfold setStatus_enqueue
  by_cases h : st.connectionState = 0 <;> cases conn <;> simp [h]

/-- A rate-limited setStatus call: the topic was recorded less than
msgRatePerTopic seconds ago, so the call returns True and changes nothing. -/
theorem setStatus_dropped (st : MQTTState) (now : Nat) (twcid key payload : String)
    (conn : ConnectOutcome) (hst : st.status = true) (last : Nat)
    (hl : rateLookup st.msgRate (st.topicPfx ++ "/" ++ twcid ++ "/" ++ key) = some last)
    (hlt : now - last < st.msgRatePerTopic) :
    setStatus st now twcid key payload conn = (st, some true) := by
  unfold setStatus
  simp [hst, hl, hlt]

/-- A setStatus call the rate limiter allows (no recent record for the
topic): the call records the time and runs the enqueue/trim/connect tail. -/
theorem setStatus_allowed (st : MQTTState) (now : Nat) (twcid key payload : String)
    (conn : ConnectOutcome) (hst : st.status = true)
    (hallow : ∀ last,
      rateLookup st.msgRate (st.topicPfx ++ "/" ++ twcid ++ "/" ++ key) = some last →
      st.msgRatePerTopic ≤ now - last) :
    setStatus st now twcid key payload conn =
      setStatus_enqueue
        {st with msgRate :=
          rateSet st.msgRate (st.topicPfx ++ "/" ++ twcid ++ "/" ++ key) now}
        (st.topicPfx ++ "/" ++ twcid ++ "/" ++ key) payload conn := by
  unfold setStatus
  simp only [hst]
  cases hl : rateLookup st.msgRate (st.topicPfx ++ "/" ++ twcid ++ "/" ++ key) with
  | none => simp
  | some last =>
    have := hallow last hl
    have hnlt : ¬(now - last < st.msgRatePerTopic) := by omega
    simp [hnlt]

/-- The freshly appended message is in the queue after the enqueue/trim
step, whether or not the trim fired. -/
theorem setStatus_enqueue_mem (st : MQTTState) (t p : String) (conn : ConnectOutcome) :
    OutMsg.mk t p ∈ (setStatus_enqueue st t p conn).1.msgQueue := by
  rw [(setStatus_enqueue_fields st t p conn).2.1]
  split
  · next hgt =>
    have hle : st.msgQueueMax ≤ st.msgQueue.length := by
      have := hgt
      simp [List.length_append] at this
      omega
    rw [List.drop_append_of_le_length hle]
    simp
  · simp

/-- The MQTTStatus instance state right after construction with an enabled
configuration whose topic root is "twc": the class-level defaults are an
empty queue and rate map, msgQueueMax 16, msgRatePerTopic 60 and
connectionState 0. -/
def mqttInit : MQTTState :=
  { status := true, topicPfx := "twc", msgRate := [], msgQueue := [],
    msgQueueBuffer := [], msgQueueMax := 16, msgRatePerTopic := 60,
    connectionState := 0 }

/-- A publish oracle under which every client.publish call succeeds. -/
def pubOk : OutMsg → Bool := fun _ => true

/-- Thirty setStatus calls with thirty distinct topics (the spec's
queue-overflow scenario), run from the freshly constructed state. -/
def run30 : MQTTState :=
  (List.range 30).foldl
    (fun s i => (setStatus s 0 "T" (toString i) "v" ConnectOutcome.ok).1) mqttInit

end TWC

namespace TWC

/-- Claim C2 counterexample: with the module enabled, a message that is
enqueued normally (fresh topic, connect initiated successfully) makes
setStatus return None — Python falls off the end of the method — not the
boolean True the claim requires. -/
theorem C2_counterexample :
    (setStatus mqttInit 0 "A" "k" "v" ConnectOutcome.ok).2 ≠ some true ∧
    (setStatus mqttInit 0 "A" "k" "v" ConnectOutcome.ok).2 = Option.none ∧
    (setStatus mqttInit 0 "A" "k" "v" ConnectOutcome.ok).1.msgQueue =
      [OutMsg.mk "twc/A/k" "v"] := by
  refine ⟨by decide, by decide, by decide⟩

/-- Claim C2 (amended): with the module enabled, setStatus returns True when
the message is rate-limited and dropped; it returns False exactly when the
message was enqueued, the connection state was Idle and the connect attempt
raised (ConnectionRefusedError or OSError), and in that case the message is
still present in the outbound queue; when the message is enqueued and no
connect error occurs (connect initiated, or a connect already in flight) it
returns no value (None) rather than True. -/
theorem C2_setStatus_return_amended (st : MQTTState) (now : Nat)
    (twcid key payload : String) (conn : ConnectOutcome) (hst : st.status = true) :
    (∀ last,
       rateLookup st.msgRate (st.topicPfx ++ "/" ++ twcid ++ "/" ++ key) = some last →
       now - last < st.msgRatePerTopic →
       (setStatus st now twcid key payload conn).2 = some true) ∧
    ((∀ last,
        rateLookup st.msgRate (st.topicPfx ++ "/" ++ twcid ++ "/" ++ key) = some last →
        st.msgRatePerTopic ≤ now - last) →
      st.connectionState = 0 → conn ≠ ConnectOutcome.ok →
      (setStatus st now twcid key payload conn).2 = some false ∧
      OutMsg.mk (st.topicPfx ++ "/" ++ twcid ++ "/" ++ key) payload ∈
        (setStatus st now twcid key payload conn).1.msgQueue) ∧
    ((∀ last,
        rateLookup st.msgRate (st.topicPfx ++ "/" ++ twcid ++ "/" ++ key) = some last →
        st.msgRatePerTopic ≤ now - last) →
      (st.connectionState ≠ 0 ∨ conn = ConnectOutcome.ok) →
      (setStatus st now twcid key payload conn).2 = Option.none) := by
  refine ⟨?_, ?_, ?_⟩
  · intro last hl hlt
    rw [setStatus_dropped st now twcid key payload conn hst last hl hlt]
  · intro hallow hidle hnok
    rw [setStatus_allowed st now twcid key payload conn hst hallow]
    constructor
    · rw [(setStatus_enqueue_fields _ _ _ _).2.2.2.2]
      simp only [hidle]
      simp [hnok]
    · exact setStatus_enqueue_mem _ _ _ _
  · intro hallow hcase
    rw [setStatus_allowed st now twcid key payload conn hst hallow]
    rw [(setStatus_enqueue_fields _ _ _ _).2.2.2.2]
    rcases hcase with h | h
    · simp only []
      rw [if_neg h]
    · simp [h]

/-- Claim C2 witness: the amended theorem applied to the freshly constructed
state with a refused connect attempt: the call returns False and the message
remains queued. -/
theorem C2_witness :
    (setStatus mqttInit 5 "A" "k" "v" ConnectOutcome.refused).2 = some false ∧
    OutMsg.mk "twc/A/k" "v" ∈
      (setStatus mqttInit 5 "A" "k" "v" ConnectOutcome.refused).1.msgQueue := by
  have h := (C2_setStatus_return_amended mqttInit 5 "A" "k" "v"
      ConnectOutcome.refused rfl).2.1
    (fun last hl => by simp [mqttInit, rateLookup] at hl) rfl (by decide)
  exact h

/-- Claim C3: a setStatus call for a topic recorded less than
msgRatePerTopic seconds ago enqueues nothing and records nothing (the state
is unchanged and the call returns True); a call for a topic whose interval
has elapsed, or never sent before, records the current time for the topic
and appends exactly one message to the queue (exactly one when no overflow
trim fires; the general queue effect is append-then-trim). -/
theorem C3_setStatus_rate_limit (st : MQTTState) (now : Nat)
    (twcid key payload : String) (conn : ConnectOutcome) (hst : st.status = true) :
    (∀ last,
       rateLookup st.msgRate (st.topicPfx ++ "/" ++ twcid ++ "/" ++ key) = some last →
       now - last < st.msgRatePerTopic →
       setStatus st now twcid key payload conn = (st, some true)) ∧
    ((∀ last,
        rateLookup st.msgRate (st.topicPfx ++ "/" ++ twcid ++ "/" ++ key) = some last →
        st.msgRatePerTopic ≤ now - last) →
      (setStatus st now twcid key payload conn).1.msgRate =
        rateSet st.msgRate (st.topicPfx ++ "/" ++ twcid ++ "/" ++ key) now ∧
      (st.msgQueue.length ≤ st.msgQueueMax + 7 →
        (setStatus st now twcid key payload conn).1.msgQueue =
          st.msgQueue ++ [OutMsg.mk (st.topicPfx ++ "/" ++ twcid ++ "/" ++ key) payload])) := by
  constructor
  · intro last hl hlt
    exact setStatus_dropped st now twcid key payload conn hst last hl hlt
  · intro hallow
    rw [setStatus_allowed st now twcid key payload conn hst hallow]
    constructor
    · rw [(setStatus_enqueue_fields _ _ _ _).1]
    · intro hlen
      rw [(setStatus_enqueue_fields _ _ _ _).2.1]
      have hnot : ¬((st.msgQueue ++
          [OutMsg.mk (st.topicPfx ++ "/" ++ twcid ++ "/" ++ key) payload]).length >
          st.msgQueueMax + 8) := by
        simp only [List.length_append, List.length_cons, List.length_nil]
        omega
      simp [hnot]
      intro hc
      exact absurd hc (by omega)

/-- Claim C3 witness: the rate-limit theorem applied to the spec's concrete
scenario with msgRatePerTopic 60: a second same-topic call 59 seconds after
the first changes nothing and returns True, and a third call 61 seconds
after the first enqueues one more message. -/
theorem C3_witness :
    setStatus (setStatus mqttInit 0 "A" "k" "v" ConnectOutcome.ok).1 59 "A" "k" "v"
        ConnectOutcome.ok =
      ((setStatus mqttInit 0 "A" "k" "v" ConnectOutcome.ok).1, some true) ∧
    (setStatus (setStatus mqttInit 0 "A" "k" "v" ConnectOutcome.ok).1 61 "A" "k" "v2"
        ConnectOutcome.ok).1.msgQueue =
      [OutMsg.mk "twc/A/k" "v", OutMsg.mk "twc/A/k" "v2"] := by
  constructor
  · exact (C3_setStatus_rate_limit (setStatus mqttInit 0 "A" "k" "v" ConnectOutcome.ok).1
      59 "A" "k" "v" ConnectOutcome.ok (by rfl)).1 0 (by rfl) (by decide)
  · have h := ((C3_setStatus_rate_limit (setStatus mqttInit 0 "A" "k" "v" ConnectOutcome.ok).1
      61 "A" "k" "v2" ConnectOutcome.ok (by rfl)).2
      (fun last hl => by
        have h0 : (0 : Nat) = last := by
          injection (show some (0 : Nat) = some last from hl)
        subst h0
        decide)).2 (by decide)
    exact h.trans (by decide)

end TWC

namespace TWC

set_option maxRecDepth 100000 in
/-- Claim C4: after a setStatus call the queue length never exceeds
msgQueueMax + 8 (given it did not before the call and msgQueueMax is at
least 1); when the appended queue exceeds msgQueueMax + 8 the oldest
msgQueueMax entries are deleted; trimming only ever discards the oldest
entries — the resulting queue is a suffix of the appended queue; and in the
concrete 30-distinct-topic scenario with msgQueueMax 16 the final queue
holds 14 messages (at most 16), exactly the most recently enqueued ones. -/
theorem C4_setStatus_queue_bound (st : MQTTState) (now : Nat)
    (twcid key payload : String) (conn : ConnectOutcome)
    (hst : st.status = true) (hmax : 1 ≤ st.msgQueueMax)
    (hlen : st.msgQueue.length ≤ st.msgQueueMax + 8) :
    ((setStatus st now twcid key payload conn).1.msgQueue.length ≤ st.msgQueueMax + 8) ∧
    ((∀ last,
        rateLookup st.msgRate (st.topicPfx ++ "/" ++ twcid ++ "/" ++ key) = some last →
        st.msgRatePerTopic ≤ now - last) →
      List.IsSuffix (setStatus st now twcid key payload conn).1.msgQueue
        (st.msgQueue ++ [OutMsg.mk (st.topicPfx ++ "/" ++ twcid ++ "/" ++ key) payload]) ∧
      ((st.msgQueue ++
          [OutMsg.mk (st.topicPfx ++ "/" ++ twcid ++ "/" ++ key) payload]).length >
          st.msgQueueMax + 8 →
        (setStatus st now twcid key payload conn).1.msgQueue =
          (st.msgQueue ++
            [OutMsg.mk (st.topicPfx ++ "/" ++ twcid ++ "/" ++ key) payload]).drop
            st.msgQueueMax)) ∧
    run30.msgQueue.length = 14 ∧ run30.msgQueue.length ≤ 16 ∧
    run30.msgQueue =
      ((List.range 30).map (fun i => OutMsg.mk ("twc/T/" ++ toString i) "v")).drop 16 := by
  have hqueue : ∀ (st' : MQTTState) (t p : String),
      (setStatus_enqueue st' t p conn).1.msgQueue =
        (if (st'.msgQueue ++ [OutMsg.mk t p]).length > st'.msgQueueMax + 8 then
          (st'.msgQueue ++ [OutMsg.mk t p]).drop st'.msgQueueMax
        else st'.msgQueue ++ [OutMsg.mk t p]) :=
    fun st' t p => (setStatus_enqueue_fields st' t p conn).2.1
  refine ⟨?_, ?_, by decide, by decide, by decide⟩
  · by_cases hdrop : ∃ last,
        rateLookup st.msgRate (st.topicPfx ++ "/" ++ twcid ++ "/" ++ key) = some last ∧
        now - last < st.msgRatePerTopic
    · obtain ⟨last, hl, hlt⟩ := hdrop
      rw [setStatus_dropped st now twcid key payload conn hst last hl hlt]
      exact hlen
    · push_neg at hdrop
      have hallow : ∀ last,
          rateLookup st.msgRate (st.topicPfx ++ "/" ++ twcid ++ "/" ++ key) = some last →
          st.msgRatePerTopic ≤ now - last := fun last hl => hdrop last hl
      rw [setStatus_allowed st now twcid key payload conn hst hallow, hqueue]
      split
      · next hgt =>
        simp only [List.length_drop, List.length_append, List.length_cons,
          List.length_nil]
        simp only [List.length_append, List.length_cons, List.length_nil] at hgt
        omega
      · next hle =>
        simp only [List.length_append, List.length_cons, List.length_nil]
        simp only [gt_iff_lt, not_lt, List.length_append, List.length_cons,
          List.length_nil] at hle
        omega
  · intro hallow
    rw [setStatus_allowed st now twcid key payload conn hst hallow, hqueue]
    constructor
    · split
      · exact ⟨(st.msgQueue ++
          [OutMsg.mk (st.topicPfx ++ "/" ++ twcid ++ "/" ++ key) payload]).take
            st.msgQueueMax, List.take_append_drop _ _⟩
      · exact ⟨[], rfl⟩
    · intro hgt
      rw [if_pos hgt]

/-- Claim C4 witness: the queue-bound theorem applied to the freshly
constructed state: after one call the queue holds one message, within the
bound of 24. -/
theorem C4_witness :
    (setStatus mqttInit 0 "A" "k" "v" ConnectOutcome.ok).1.msgQueue.length ≤ 16 + 8 :=
  (C4_setStatus_queue_bound mqttInit 0 "A" "k" "v" ConnectOutcome.ok rfl
    (by decide) (by decide)).1

end TWC

namespace TWC

/-- Claim C8 counterexample: after setStatus successfully initiates an
asynchronous connect attempt, the connection state is 1 (Connecting); a
connect failure reported after the asynchronous attempt invokes no module
code — the module registers only the connect-success callback — so the state
does not return to Idle (0), contradicting the claim. -/
theorem C8_counterexample :
    mqtt_dispatch (setStatus mqttInit 0 "A" "k" "v" ConnectOutcome.ok).1 pubOk
        MqttAsyncEvent.connFailureReport =
      (setStatus mqttInit 0 "A" "k" "v" ConnectOutcome.ok).1 ∧
    (setStatus mqttInit 0 "A" "k" "v" ConnectOutcome.ok).1.connectionState = 1 ∧
    (setStatus mqttInit 0 "A" "k" "v" ConnectOutcome.ok).1.connectionState ≠ 0 := by
  refine ⟨rfl, by decide, by decide⟩

/-- Claim C8 (amended): a synchronous failure of the connect call
(ConnectionRefusedError or OSError raised by connect_async) leaves the
connection state Idle — it is caught before the state is set to Connecting;
but a failure reported after the asynchronous attempt runs no module code
(only the connect-success callback is registered) and leaves the state
unchanged, so the state returns to Idle only when the success callback
mqttConnected runs to completion. -/
theorem C8_connect_failure_amended (st : MQTTState) (now : Nat)
    (twcid key payload : String) (conn : ConnectOutcome) (pub : OutMsg → Bool)
    (hst : st.status = true) (hidle : st.connectionState = 0) :
    (conn ≠ ConnectOutcome.ok →
       (setStatus st now twcid key payload conn).1.connectionState = 0) ∧
    (mqtt_dispatch st pub MqttAsyncEvent.connFailureReport = st) ∧
    ((mqttConnected st pub).raisedNameError = false →
       (mqttConnected st pub).finalState.connectionState = 0) := by
  refine ⟨?_, rfl, ?_⟩
  · intro hnok
    by_cases hdrop : ∃ last,
        rateLookup st.msgRate (st.topicPfx ++ "/" ++ twcid ++ "/" ++ key) = some last ∧
        now - last < st.msgRatePerTopic
    · obtain ⟨last, hl, hlt⟩ := hdrop
      rw [setStatus_dropped st now twcid key payload conn hst last hl hlt]
      exact hidle
    · push_neg at hdrop
      rw [setStatus_allowed st now twcid key payload conn hst
        (fun last hl => hdrop last hl)]
      rw [(setStatus_enqueue_fields _ _ _ _).2.2.2.1]
      simp [hidle, hnok]
  · intro hname
    by_cases hb : (drainLoop pub st.msgQueue).2
    · exfalso
      simp [mqttConnected, hb] at hname
    · simp [mqttConnected, hb]

/-- Claim C8 witness: the amended theorem applied to the freshly constructed
state with a refused synchronous connect: the state stays Idle. -/
theorem C8_witness :
    (setStatus mqttInit 7 "A" "k" "v" ConnectOutcome.refused).1.connectionState = 0 :=
  (C8_connect_failure_amended mqttInit 7 "A" "k" "v" ConnectOutcome.refused pubOk
    rfl rfl).1 (by decide)

/-- Claim C6 (code-bug evidence): the per-message handler in mqttConnected is
written `except e:` where e is an unbound name, so the first failing
client.publish call raises NameError instead of being caught: with a
two-message snapshot whose first publish fails, nothing is published, the
remaining message of the batch is not published, and the callback aborts
without clearing the buffer, without resetting the connection state to Idle
and without disconnecting — contradicting the claim that a per-message
failure is logged and swallowed and the batch continues. -/
theorem C6_drain_failure_aborts :
    mqttConnected
      { mqttInit with
          msgQueue := [OutMsg.mk "twc/A/k1" "v1", OutMsg.mk "twc/A/k2" "v2"],
          connectionState := 1 }
      (fun m => m.topic != "twc/A/k1") =
      { finalState :=
          { mqttInit with
              msgQueue := [],
              msgQueueBuffer := [OutMsg.mk "twc/A/k1" "v1", OutMsg.mk "twc/A/k2" "v2"],
              connectionState := 1 },
        published := [], raisedNameError := true, disconnected := false } := by
  decide

end TWC

namespace TWC

/-- Claim C7 witness: the loop theorem applied to a run of five iterations
all ending in a connect-phase OSError: the loop is still running. -/
theorem C7_witness :
    knx_server_loop_running (fun _ => KNXIterEvent.connectOSError) 5 = true :=
  (C7_knx_server_loop_retries (fun _ => KNXIterEvent.connectOSError) 5).1

/-- Claim C10 witness: the characterization applied to the concrete string
"1/1/123x", a valid three-segment head followed by trailing garbage, which
the validator accepts. -/
theorem C10_witness :
    is_knx_address (some "1/1/123x") = true :=
  ((C10_is_knx_address_spec).1 "1/1/123x").mpr
    ⟨['1'], ['1'], ['1', '2', '3'], ['x'], by decide, by decide, by decide, by decide,
     by decide, by decide, by decide, by decide, by decide, by decide⟩

end TWC
